import Mathlib

/-!
Verification of the communication_service dispatch-reliability engine.

Shallow embedding of the Python sources:
  app/services/sms/sms_service.py      (SMSService: circuit breaker, rate
                                        limiting, validation, dispatch)
  app/services/email/email_service.py  (CircuitBreaker, EmailService)
  app/utils/validators.py              (PhoneValidator)
  app/services/otp/otp_handler.py      (OTPHandler)

Machine times are modelled as `Int` (seconds); phone numbers as `List Char`.
-/

namespace CommService

/-! ## Circuit breaker

Embeds `CircuitBreaker` from app/services/email/email_service.py (lines
29-59) and the identical inlined breaker of `SMSService`
(app/services/sms/sms_service.py lines 46-72).  `failure_count` and
`last_failure_time` are the mutable fields; `threshold` and `timeout` are
the configuration values fixed at construction.  `datetime.now()` is passed
in explicitly as `now : Int`; `(datetime.now() - last_failure_time)
.total_seconds()` becomes `now - t`.
-/

structure CBState where
  failure_count : Nat
  last_failure_time : Option Int
  threshold : Nat
  timeout : Int
deriving Repr, DecidableEq

/-- `is_open` from email_service.py lines 38-49 / `_is_circuit_breaker_open`
from sms_service.py lines 51-62.  Returns the boolean result together with
the state after the call (the call mutates the state when it resets the
breaker). -/
def CBState.is_open (s : CBState) (now : Int) : Bool × CBState :=
  if s.threshold ≤ s.failure_count then
    match s.last_failure_time with
    | some t =>
        if now - t < s.timeout then (true, s)
        else (false, { s with failure_count := 0, last_failure_time := none })
    | none => (false, s)
  else (false, s)

/-- `record_failure` (email_service.py lines 51-54, sms_service.py 64-67). -/
def CBState.record_failure (s : CBState) (now : Int) : CBState :=
  { s with failure_count := s.failure_count + 1, last_failure_time := some now }

/-- `record_success` (email_service.py lines 56-59, sms_service.py 69-72). -/
def CBState.record_success (s : CBState) : CBState :=
  { s with failure_count := 0, last_failure_time := none }

/-! ## Phone validation and normalization

Embeds `PhoneValidator` from app/utils/validators.py.  A phone number is a
`List Char`.  `re.sub(r'[\s\-\(\)]', '', phone)` becomes a filter removing
the ASCII whitespace characters together with dash and parentheses (the
extra non-ASCII whitespace code points matched by Python \s never occur in
the normalizer output, so they are elided).  Each anchored regular
expression of `PATTERNS` becomes a boolean predicate of the same shape.
-/

/-- Characters removed by `clean_phone_number` (validators.py lines 21-24):
whitespace, dash and parentheses. -/
def removableChar (c : Char) : Bool :=
  c = ' ' || c = '\t' || c = '\n' || c = '\x0b' || c = '\x0c' || c = '\r' ||
    c = '-' || c = '(' || c = ')'

/-- `PhoneValidator.clean_phone_number` (validators.py lines 21-24). -/
def clean_phone_number (s : List Char) : List Char :=
  s.filter (fun c => !(removableChar c))

def isDigitChar (c : Char) : Bool := '0' ≤ c && c ≤ '9'

/-- Regex `^98[0-9]{10}$` (validators.py line 13). -/
def pat98d10 (s : List Char) : Bool :=
  match s with
  | a :: b :: rest =>
      a == '9' && b == '8' && rest.length == 10 && rest.all isDigitChar
  | _ => false

/-- Regex `^98[0-9]{11}$` (validators.py line 14). -/
def pat98d11 (s : List Char) : Bool :=
  match s with
  | a :: b :: rest =>
      a == '9' && b == '8' && rest.length == 11 && rest.all isDigitChar
  | _ => false

/-- Regex `^\+98[0-9]{10}$` (validators.py line 11). -/
def patPlus98d10 (s : List Char) : Bool :=
  match s with
  | a :: b :: d :: rest =>
      a == '+' && b == '9' && d == '8' && rest.length == 10 &&
        rest.all isDigitChar
  | _ => false

/-- Regex `^0098[0-9]{10}$` (validators.py line 12). -/
def pat0098d10 (s : List Char) : Bool :=
  match s with
  | a :: b :: d :: e :: rest =>
      a == '0' && b == '0' && d == '9' && e == '8' && rest.length == 10 &&
        rest.all isDigitChar
  | _ => false

/-- Regex `^09[0-9]{9}$` (validators.py line 15). -/
def pat09d9 (s : List Char) : Bool :=
  match s with
  | a :: b :: rest =>
      a == '0' && b == '9' && rest.length == 9 && rest.all isDigitChar
  | _ => false

/-- Regex `^09[0-9]{10}$` (validators.py line 16). -/
def pat09d10 (s : List Char) : Bool :=
  match s with
  | a :: b :: rest =>
      a == '0' && b == '9' && rest.length == 10 && rest.all isDigitChar
  | _ => false

/-- Regex `^5000[0-9]{10}$` (validators.py line 17). -/
def pat5000d10 (s : List Char) : Bool :=
  match s with
  | a :: b :: d :: e :: rest =>
      a == '5' && b == '0' && d == '0' && e == '0' && rest.length == 10 &&
        rest.all isDigitChar
  | _ => false

/-- Regex `^\+?[1-9]\d{1,14}$` (validators.py line 18): optional plus, a
leading digit 1-9, then 1 to 14 further digits. -/
def patIntlCore (s : List Char) : Bool :=
  match s with
  | c :: rest =>
      ('1' ≤ c && c ≤ '9') && (1 ≤ rest.length && rest.length ≤ 14) &&
        rest.all isDigitChar
  | [] => false

def patIntl (s : List Char) : Bool :=
  match s with
  | '+' :: rest => patIntlCore rest
  | _ => patIntlCore s

/-- Branch cascade of `PhoneValidator.convert_phone_for_melipayamak`
(validators.py lines 36-67), applied to the already-cleaned number. -/
def convertCleaned (c : List Char) : List Char :=
  if pat98d10 c then '0' :: '9' :: c.drop 3
  else if pat98d11 c then c
  else if patPlus98d10 c then '0' :: '9' :: c.drop 4
  else if pat0098d10 c then '0' :: '9' :: c.drop 5
  else if pat09d9 c then c
  else if pat09d10 c then c.dropLast
  else c

/-- `PhoneValidator.convert_phone_for_melipayamak` (validators.py lines
33-67): clean the number, then normalize the recognized prefixes to the
local `09...` form; anything else falls through and the cleaned number is
returned. -/
def convert_phone_for_melipayamak (phone : List Char) : List Char :=
  convertCleaned (clean_phone_number phone)

/-- True when the cleaned number matches none of the six branch patterns of
`convert_phone_for_melipayamak`, i.e. the run falls through to the final
`return clean_phone`. -/
def noBranchMatches (c : List Char) : Bool :=
  !(pat98d10 c) && !(pat98d11 c) && !(patPlus98d10 c) && !(pat0098d10 c) &&
    !(pat09d9 c) && !(pat09d10 c)

/-! ## Configuration defaults (app/core/config.py) -/

def sms_rate_limit : Nat := 10
def email_rate_limit : Nat := 5
def sms_retry_attempts : Nat := 3
def email_retry_attempts : Nat := 3

/-! ## Retry policy

Embeds the tenacity decorators.  `SMSService._send_http_request`
(sms_service.py lines 110-114) is decorated with
`stop=stop_after_attempt(settings.sms_retry_attempts)` and
`retry=retry_if_exception_type((httpx.TimeoutException, httpx.ConnectError,
httpx.RemoteProtocolError))`.  `EmailService._send_smtp_email_sync`
(email_service.py lines 77-81) uses
`retry_if_exception_type((smtplib.SMTPException, ConnectionError,
TimeoutError))`.  Python exception classes become exception-kind enums;
subclassing matters: `smtplib.SMTPAuthenticationError` and
`smtplib.SMTPRecipientsRefused` are subclasses of `smtplib.SMTPException`,
so `retry_if_exception_type(smtplib.SMTPException)` matches them.
-/

inductive SmsExcKind
  | timeoutException
  | connectError
  | remoteProtocolError
  | httpStatusError
  | jsonDecodeError
  | smsServiceError
  | otherError
deriving DecidableEq, Repr

/-- Exceptions matched by the retry predicate of `_send_http_request`. -/
def smsRetryableExc : SmsExcKind → Bool
  | .timeoutException => true
  | .connectError => true
  | .remoteProtocolError => true
  | _ => false

inductive EmailExcKind
  | smtpAuthenticationError
  | smtpRecipientsRefused
  | smtpOtherError
  | connectionError
  | timeoutError
  | valueError
  | otherError
deriving DecidableEq, Repr

/-- Exceptions matched by the retry predicate of `_send_smtp_email_sync`:
every `smtplib.SMTPException` subclass (which includes the authentication
and recipient-refused errors), `ConnectionError` and `TimeoutError`. -/
def emailRetryableExc : EmailExcKind → Bool
  | .smtpAuthenticationError => true
  | .smtpRecipientsRefused => true
  | .smtpOtherError => true
  | .connectionError => true
  | .timeoutError => true
  | _ => false

/-- Tenacity decision after attempt number `attemptNumber` (1-based) raised
`e`: retry iff the exception kind is in the retry predicate and
`stop_after_attempt(maxAttempts)` has not been reached. -/
def sms_should_retry (maxAttempts attemptNumber : Nat) (e : SmsExcKind) :
    Bool :=
  smsRetryableExc e && decide (attemptNumber < maxAttempts)

def email_should_retry (maxAttempts attemptNumber : Nat) (e : EmailExcKind) :
    Bool :=
  emailRetryableExc e && decide (attemptNumber < maxAttempts)

/-! ## Rate limiter

Both services guard the transport call with
`asyncio.Semaphore(settings.<channel>_rate_limit)` used only through
`async with` (sms_service.py line 153, email_service.py line 143): an
acquire suspends the caller while all `capacity` permits are held, and the
scoped exit releases the held permit on every path out of the block.  The
number of permits in use therefore evolves by this transition system:
an acquire completes only when a permit is free, and a release is performed
only by a holder. -/
inductive SemReach (capacity : Nat) : Nat → Prop
  | init : SemReach capacity 0
  | acq {n : Nat} : SemReach capacity n → n < capacity →
      SemReach capacity (n + 1)
  | rel {n : Nat} : SemReach capacity n → 0 < n → SemReach capacity (n - 1)

/-! ## SMS dispatch (`SMSService.send_sms`, sms_service.py lines 129-238) -/

/-- Observable events of one dispatch call, in order: semaphore acquire and
release, the transport interaction, and an attempted write to the audit
sink (the CSV logger). -/
inductive Ev
  | acquire
  | release
  | transportCall
  | auditWrite
deriving DecidableEq, Repr

/-- `SMSRequest` as received by the service. -/
structure SmsReq where
  toNumber : List Char
  text : List Char
  from_number : Option (List Char)
deriving DecidableEq, Repr

/-- `_validate_phone_number` (sms_service.py lines 74-88): clean the number
and match it against the five patterns listed there. -/
def smsServiceValidPhone (phone : List Char) : Bool :=
  patPlus98d10 (clean_phone_number phone) ||
    pat0098d10 (clean_phone_number phone) ||
    pat09d9 (clean_phone_number phone) ||
    pat5000d10 (clean_phone_number phone) ||
    patIntl (clean_phone_number phone)

/-- Python `str.strip` whitespace set (ASCII part). -/
def isPySpace (c : Char) : Bool :=
  c = ' ' || c = '\t' || c = '\n' || c = '\x0b' || c = '\x0c' || c = '\r'

def stripText (s : List Char) : List Char :=
  ((s.dropWhile isPySpace).reverse.dropWhile isPySpace).reverse

/-- `_validate_sms_request` (sms_service.py lines 99-108): the message of
the raised `SMSServiceError`, or `none` when the request is valid. -/
def validate_sms_request (req : SmsReq) : Option String :=
  if !(smsServiceValidPhone req.toNumber) then
    some ("Invalid phone number format: " ++ String.mk req.toNumber)
  else if req.text.isEmpty || (stripText req.text).isEmpty then
    some "SMS text cannot be empty"
  else if 1600 < req.text.length then
    some "SMS text exceeds maximum length of 1600 characters"
  else none

/-- `_sanitize_text` (sms_service.py lines 90-97). -/
def sanitize_text (t : List Char) : List Char :=
  if 1600 < (stripText t).length then (stripText t).take 1600 else stripText t

/-- Outcome of the transport interaction as observed by `send_sms` after
`_send_http_request` (with its internal retries) returns a response or
raises.  The exception message suffixes built from `str(e)` are elided. -/
inductive SmsTransport
  | ok (recId : Option Int) (status : String)
  | okBadJson
  | httpError (code : Nat) (text : String)
  | raiseTimeout
  | raiseConnect
  | raiseHttpStatus
  | raiseOther
deriving DecidableEq, Repr

/-- Either the returned `SMSResponse` (projected to its identifying fields)
or the message of the raised `SMSServiceError`. -/
inductive SmsResult
  | response (recId : Int) (status : String)
  | raised (msg : String)
deriving DecidableEq, Repr

structure SmsDispatch where
  result : SmsResult
  breaker : CBState
  events : List Ev
  audits : List String
deriving DecidableEq, Repr

/-- `send_sms` (sms_service.py lines 129-238): circuit breaker check, then
validation, then the rate-limited transport call with breaker bookkeeping
and audit logging.  `auditRaises` models the audit sink raising inside
`_log_sms_async`; the exception is caught there (lines 250-251) and the
write happens from a fire-and-forget task, so it can only suppress the
recorded row, never change the result.  `audits` collects the statuses the
audit sink actually records. -/
def send_sms (cb : CBState) (now : Int) (req : SmsReq)
    (transport : SmsTransport) (auditRaises : Bool) : SmsDispatch :=
  if (cb.is_open now).1 then
    { result := .raised
        "SMS service is temporarily unavailable due to high failure rate",
      breaker := (cb.is_open now).2, events := [], audits := [] }
  else
    match validate_sms_request req with
    | some msg =>
        { result := .raised msg, breaker := (cb.is_open now).2,
          events := [], audits := [] }
    | none =>
        match transport with
        | .ok recId status =>
            { result := .response (recId.getD 0) status,
              breaker := (cb.is_open now).2.record_success,
              events := [.acquire, .transportCall, .auditWrite, .release],
              audits := if auditRaises then [] else [status] }
        | .okBadJson =>
            { result := .raised "Invalid API response format",
              breaker := (cb.is_open now).2.record_failure now,
              events := [.acquire, .transportCall, .release], audits := [] }
        | .httpError code text =>
            { result := .raised ("API request failed with status " ++
                toString code ++ ": " ++ text),
              breaker := (cb.is_open now).2.record_failure now,
              events := [.acquire, .transportCall, .auditWrite, .release],
              audits := if auditRaises then []
                else [("API request failed with status " ++
                  toString code ++ ": " ++ text)] }
        | .raiseTimeout =>
            { result := .raised "Request timeout",
              breaker := (cb.is_open now).2.record_failure now,
              events := [.acquire, .transportCall, .release], audits := [] }
        | .raiseConnect =>
            { result := .raised "Connection error",
              breaker := (cb.is_open now).2.record_failure now,
              events := [.acquire, .transportCall, .release], audits := [] }
        | .raiseHttpStatus =>
            { result := .raised "HTTP error",
              breaker := (cb.is_open now).2.record_failure now,
              events := [.acquire, .transportCall, .release], audits := [] }
        | .raiseOther =>
            { result := .raised "Unexpected error",
              breaker := (cb.is_open now).2.record_failure now,
              events := [.acquire, .transportCall, .release], audits := [] }

/-! ## Email dispatch (`EmailService.send_email`, email_service.py lines
132-209) -/

structure EmailReq where
  toAddress : String
  subject : Option String
  body : Option String
deriving DecidableEq, Repr

/-- Python truthiness of an `Optional[str]` field: `None` and the empty
string are falsy. -/
def truthyStr : Option String → Bool
  | none => false
  | some s => !(s == "")

def default_subject : String := "Welcome to Our Service"

/-- Default welcome body (email_service.py lines 91-98 and 152-159). -/
def default_body : String :=
  "Hello!\n\nThank you for your interest in our service. This is an " ++
  "automated message to confirm that our communication system is working " ++
  "properly.\n\nIf you have any questions or need assistance, please " ++
  "don't hesitate to contact us.\n\nBest regards,\n" ++
  "The Communication Service Team"

/-- Subject/body selection (email_service.py lines 84-98, duplicated at
145-159): the caller-supplied pair is used only when both are truthy,
otherwise both defaults are substituted. -/
def effective_subject_body (subject body : Option String) : String × String :=
  if truthyStr subject && truthyStr body then (subject.getD "", body.getD "")
  else (default_subject, default_body)

/-- The assembled outgoing message, projected to sender, recipient, subject
and textual content (`_send_smtp_email_sync` lines 100-128; the
plain/HTML MIME alternative packaging is elided). -/
structure MimeMessage where
  msgFrom : String
  msgTo : String
  subject : String
  body : String
deriving DecidableEq, Repr

/-- Message construction inside `_send_smtp_email_sync` (lines 84-104). -/
def build_smtp_message (defaultFrom : String) (req : EmailReq) : MimeMessage :=
  { msgFrom := defaultFrom, msgTo := req.toAddress,
    subject := (effective_subject_body req.subject req.body).1,
    body := (effective_subject_body req.subject req.body).2 }

/-- Outcome of the SMTP interaction (after the internal retries of
`_send_smtp_email_sync`). -/
inductive SmtpOutcome
  | sent (messageId : String)
  | raiseExc (e : EmailExcKind)
deriving DecidableEq, Repr

inductive EmailResult
  | response (toAddress status : String)
  | raised (msg : String)
deriving DecidableEq, Repr

structure EmailDispatch where
  result : EmailResult
  breaker : CBState
  events : List Ev
  audits : List String
deriving DecidableEq, Repr

/-- Message of an exception escaping from the audit sink itself. -/
def audit_error_msg : String := "audit sink error"

def email_failed_msg : String := "Email sending failed"

/-- `send_email` (email_service.py lines 132-209).  The audit write
(`email_logger.log_email`) runs synchronously inside the `try` block: on
the success path it is called at line 178 before `record_success`, so when
it raises (`auditRaises = true`) control reaches the `except` clause at
line 193, which records a breaker failure and attempts the failure-path
audit write at line 201; with the sink still raising, that exception
propagates out of the `except` clause, so the call raises and no row is
recorded. -/
def send_email (cb : CBState) (now : Int) (req : EmailReq)
    (smtp : SmtpOutcome) (auditRaises : Bool) : EmailDispatch :=
  if (cb.is_open now).1 then
    { result := .raised
        "Email service is temporarily unavailable due to high failure rate",
      breaker := (cb.is_open now).2, events := [], audits := [] }
  else
    match smtp with
    | .sent _ =>
        if auditRaises then
          { result := .raised audit_error_msg,
            breaker := (cb.is_open now).2.record_failure now,
            events := [.acquire, .transportCall, .auditWrite, .auditWrite,
              .release],
            audits := [] }
        else
          { result := .response req.toAddress "sent",
            breaker := (cb.is_open now).2.record_success,
            events := [.acquire, .transportCall, .auditWrite, .release],
            audits := ["sent"] }
    | .raiseExc _ =>
        if auditRaises then
          { result := .raised audit_error_msg,
            breaker := (cb.is_open now).2.record_failure now,
            events := [.acquire, .transportCall, .auditWrite, .release],
            audits := [] }
        else
          { result := .raised email_failed_msg,
            breaker := (cb.is_open now).2.record_failure now,
            events := [.acquire, .transportCall, .auditWrite, .release],
            audits := [email_failed_msg] }

/-! ## OTP handling (`OTPHandler`, otp_handler.py) -/

/-- Decoded OTP queue message fields used by the handlers
(`message_data.get`). -/
structure OTPMessage where
  identifier : Option String
  otp_code : Option String
deriving DecidableEq, Repr

/-- Outcome of the underlying channel dispatch as interpreted by the
handler (success means the response status was accepted). -/
inductive DispatchOutcome
  | success
  | failure
deriving DecidableEq, Repr

/-- `OTPHandler.handle_email_otp` (otp_handler.py lines 21-161), abstracting
the email dispatch to its interpreted outcome.  Returns the handler bool
(its documented contract: True if processed successfully, False otherwise)
paired with the number of transport invocations performed. -/
def handle_email_otp (msg : OTPMessage) (send : DispatchOutcome) :
    Bool × Nat :=
  if !(truthyStr msg.identifier) || !(truthyStr msg.otp_code) then (false, 0)
  else
    match send with
    | .success => (true, 1)
    | .failure => (false, 1)

/-- `OTPHandler.handle_sms_otp` (otp_handler.py lines 163-200), abstracting
the SMS dispatch to its interpreted outcome. -/
def handle_sms_otp (msg : OTPMessage) (send : DispatchOutcome) :
    Bool × Nat :=
  if !(truthyStr msg.identifier) || !(truthyStr msg.otp_code) then (false, 0)
  else
    match send with
    | .success => (true, 1)
    | .failure => (false, 1)

inductive BrokerAction
  | ack
  | nackRequeue
deriving DecidableEq, Repr

/-- Failure attributable to bad event data, in the words of the spec
(section 4.5): a missing (or empty) identifier or code.  This is the same
condition the handlers in src test at otp_handler.py lines 39 and 169. -/
def badEventData (msg : OTPMessage) : Bool :=
  !(truthyStr msg.identifier) || !(truthyStr msg.otp_code)

/-- Modelled from the spec: the queue callback factory
`create_otp_message_callback` lives in `app/rabbitmq/consumer.py`, which is
not under src/.  Following the words of the spec (section 4.5, and the
scenario in section 8): a message processed successfully (handler returned
True) is acknowledged; a failure attributable to bad event data (missing
identifier or code) is acknowledged and dropped, non-retryable; a
transport- or circuit-related failure is negatively acknowledged for
broker-level redelivery.  The callback receives the decoded message along
with the handler result, so it classifies bad event data itself. -/
def broker_action (msg : OTPMessage) (handlerResult : Bool) : BrokerAction :=
  if handlerResult then .ack
  else if badEventData msg then .ack
  else .nackRequeue

/-- `permitScoped tr` states the rate-limiter discipline of one dispatch
trace: either the call never entered the `async with` block, or the trace
is exactly one acquire, a permit-holding body, and one release on exit. -/
def permitScoped (tr : List Ev) : Prop :=
  tr = [] ∨ ∃ mid, tr = Ev.acquire :: mid ++ [Ev.release] ∧
    Ev.acquire ∉ mid ∧ Ev.release ∉ mid

/-! ## Concrete fixtures used by counterexamples and witnesses -/

/-- A breaker with the default SMS threshold 5 reached one second ago. -/
def sampleOpenBreaker : CBState :=
  { failure_count := 5, last_failure_time := some 0, threshold := 5,
    timeout := 60 }

def sampleClosedBreaker : CBState :=
  { failure_count := 0, last_failure_time := none, threshold := 5,
    timeout := 60 }

/-- A fresh breaker with the default email threshold 3. -/
def sampleEmailBreaker : CBState :=
  { failure_count := 0, last_failure_time := none, threshold := 3,
    timeout := 60 }

/-- A breaker with the default email threshold 3 reached recently. -/
def sampleOpenEmailBreaker : CBState :=
  { failure_count := 3, last_failure_time := some 0, threshold := 3,
    timeout := 60 }

/-- A valid request: local number 09123456789, text `hi`. -/
def sampleReq : SmsReq :=
  { toNumber := ['0', '9', '1', '2', '3', '4', '5', '6', '7', '8', '9'],
    text := ['h', 'i'], from_number := none }

/-- A request failing phone validation. -/
def sampleBadReq : SmsReq :=
  { toNumber := ['a'], text := ['h', 'i'], from_number := none }

def sampleEmailReq : EmailReq :=
  { toAddress := "user@example.com", subject := none, body := none }

/-- An OTP event with a missing identifier. -/
def badOtpMessage : OTPMessage :=
  { identifier := none, otp_code := some "123456" }

def goodOtpMessage : OTPMessage :=
  { identifier := some "user@example.com", otp_code := some "123456" }

end CommService

namespace CommService

/-! ## Theorems -/

/-- C1: for every circuit breaker state, `is_open` returns true iff the
failure count has reached the threshold and the elapsed time since the
recorded last failure is strictly below the open duration; and whenever the
failure count has reached the threshold but the elapsed time is at least the
open duration, the `is_open` call itself resets the failure count to 0 and
clears the last-failure time (lazy check-and-reset). -/
theorem c1_breaker_open_iff_and_lazy_reset (s : CBState) (now : Int) :
    ((s.is_open now).1 = true ↔
      s.threshold ≤ s.failure_count ∧
        ∃ t, s.last_failure_time = some t ∧ now - t < s.timeout) ∧
    (∀ t, s.threshold ≤ s.failure_count → s.last_failure_time = some t →
      s.timeout ≤ now - t →
      (s.is_open now).2.failure_count = 0 ∧
        (s.is_open now).2.last_failure_time = none) := by
  constructor
  · unfold CBState.is_open
    split
    · rename_i hth
      cases hlf : s.last_failure_time with
      | none =>
          simp only [hlf]
          constructor
          · intro h
            exact absurd h (by simp)
          · rintro ⟨-, t, ht, -⟩
            exact absurd ht (by simp)
      | some t =>
          simp only [hlf]
          split
          · rename_i hlt
            simp only [true_iff]
            exact ⟨hth, t, rfl, hlt⟩
          · rename_i hge
            constructor
            · intro h
              exact absurd h (by simp)
            · rintro ⟨-, u, hu, hult⟩
              cases hu
              exact absurd hult hge
    · rename_i hth
      constructor
      · intro h
        exact absurd h (by simp)
      · rintro ⟨hth2, -⟩
        exact absurd hth2 hth
  · intro t hth hlf hge
    simp only [CBState.is_open, hlf, if_pos hth]
    rw [if_neg (by omega)]
    exact ⟨rfl, rfl⟩

/-- Witness for C1 at a concrete state: threshold 5 reached, last failure at
time 0, checked at time 100 with open duration 60, so the check resets the
breaker. -/
theorem c1_witness :
    (5 : Nat) ≤ 5 ∧
      (({ failure_count := 5, last_failure_time := some 0, threshold := 5,
          timeout := 60 } : CBState).is_open 100).2.failure_count = 0 ∧
      (({ failure_count := 5, last_failure_time := some 0, threshold := 5,
          timeout := 60 } : CBState).is_open 100).2.last_failure_time = none :=
  ⟨by decide,
    (c1_breaker_open_iff_and_lazy_reset
        { failure_count := 5, last_failure_time := some 0, threshold := 5,
          timeout := 60 } 100).2 0 (by decide) rfl (by decide)⟩

/-! ### Phone normalizer lemmas -/

theorem clean_of_all_kept {l : List Char}
    (h : ∀ c ∈ l, removableChar c = false) :
    clean_phone_number l = l := by
  unfold clean_phone_number
  rw [List.filter_eq_self]
  intro a ha
  simp [h a ha]

theorem clean_mem_kept {l : List Char} {c : Char}
    (hc : c ∈ clean_phone_number l) : removableChar c = false := by
  unfold clean_phone_number at hc
  have h := (List.mem_filter.mp hc).2
  simpa using h

theorem not_removable_of_digit {c : Char} (h : isDigitChar c = true) :
    removableChar c = false := by
  by_contra hne
  rw [Bool.not_eq_false] at hne
  unfold removableChar at hne
  simp only [Bool.or_eq_true, decide_eq_true_eq] at hne
  rcases hne with ((((((((h1 | h1) | h1) | h1) | h1) | h1) | h1) | h1) | h1) <;>
    subst h1 <;> exact absurd h (by decide)

theorem pat98d10_shape {s : List Char} (h : pat98d10 s = true) :
    ∃ rest, s = '9' :: '8' :: rest ∧ rest.length = 10 ∧
      rest.all isDigitChar = true := by
  match s with
  | [] => exact absurd h (by simp [pat98d10])
  | [a] => exact absurd h (by simp [pat98d10])
  | a :: b :: rest =>
      simp only [pat98d10, Bool.and_eq_true, beq_iff_eq] at h
      obtain ⟨⟨⟨ha, hb⟩, hlen⟩, hall⟩ := h
      exact ⟨rest, by rw [ha, hb], by simpa using hlen, hall⟩

theorem pat98d11_shape {s : List Char} (h : pat98d11 s = true) :
    ∃ rest, s = '9' :: '8' :: rest ∧ rest.length = 11 ∧
      rest.all isDigitChar = true := by
  match s with
  | [] => exact absurd h (by simp [pat98d11])
  | [a] => exact absurd h (by simp [pat98d11])
  | a :: b :: rest =>
      simp only [pat98d11, Bool.and_eq_true, beq_iff_eq] at h
      obtain ⟨⟨⟨ha, hb⟩, hlen⟩, hall⟩ := h
      exact ⟨rest, by rw [ha, hb], by simpa using hlen, hall⟩

theorem patPlus98d10_shape {s : List Char} (h : patPlus98d10 s = true) :
    ∃ rest, s = '+' :: '9' :: '8' :: rest ∧ rest.length = 10 ∧
      rest.all isDigitChar = true := by
  match s with
  | [] => exact absurd h (by simp [patPlus98d10])
  | [a] => exact absurd h (by simp [patPlus98d10])
  | [a, b] => exact absurd h (by simp [patPlus98d10])
  | a :: b :: d :: rest =>
      simp only [patPlus98d10, Bool.and_eq_true, beq_iff_eq] at h
      obtain ⟨⟨⟨⟨ha, hb⟩, hd⟩, hlen⟩, hall⟩ := h
      exact ⟨rest, by rw [ha, hb, hd], by simpa using hlen, hall⟩

theorem pat0098d10_shape {s : List Char} (h : pat0098d10 s = true) :
    ∃ rest, s = '0' :: '0' :: '9' :: '8' :: rest ∧ rest.length = 10 ∧
      rest.all isDigitChar = true := by
  match s with
  | [] => exact absurd h (by simp [pat0098d10])
  | [a] => exact absurd h (by simp [pat0098d10])
  | [a, b] => exact absurd h (by simp [pat0098d10])
  | [a, b, d] => exact absurd h (by simp [pat0098d10])
  | a :: b :: d :: e :: rest =>
      simp only [pat0098d10, Bool.and_eq_true, beq_iff_eq] at h
      obtain ⟨⟨⟨⟨⟨ha, hb⟩, hd⟩, he⟩, hlen⟩, hall⟩ := h
      exact ⟨rest, by rw [ha, hb, hd, he], by simpa using hlen, hall⟩

theorem pat09d9_shape {s : List Char} (h : pat09d9 s = true) :
    ∃ rest, s = '0' :: '9' :: rest ∧ rest.length = 9 ∧
      rest.all isDigitChar = true := by
  match s with
  | [] => exact absurd h (by simp [pat09d9])
  | [a] => exact absurd h (by simp [pat09d9])
  | a :: b :: rest =>
      simp only [pat09d9, Bool.and_eq_true, beq_iff_eq] at h
      obtain ⟨⟨⟨ha, hb⟩, hlen⟩, hall⟩ := h
      exact ⟨rest, by rw [ha, hb], by simpa using hlen, hall⟩

theorem pat09d10_shape {s : List Char} (h : pat09d10 s = true) :
    ∃ rest, s = '0' :: '9' :: rest ∧ rest.length = 10 ∧
      rest.all isDigitChar = true := by
  match s with
  | [] => exact absurd h (by simp [pat09d10])
  | [a] => exact absurd h (by simp [pat09d10])
  | a :: b :: rest =>
      simp only [pat09d10, Bool.and_eq_true, beq_iff_eq] at h
      obtain ⟨⟨⟨ha, hb⟩, hlen⟩, hall⟩ := h
      exact ⟨rest, by rw [ha, hb], by simpa using hlen, hall⟩

theorem pat98d10_cons_false (a b : Char) (l : List Char)
    (h : (a == '9') = false) : pat98d10 (a :: b :: l) = false := by
  simp [pat98d10, h]

theorem pat98d11_cons_false (a b : Char) (l : List Char)
    (h : (a == '9') = false) : pat98d11 (a :: b :: l) = false := by
  simp [pat98d11, h]

theorem patPlus98d10_cons_false (a b : Char) (l : List Char)
    (h : (a == '+') = false) : patPlus98d10 (a :: b :: l) = false := by
  rcases l with _ | ⟨d, rest⟩
  · rfl
  · simp [patPlus98d10, h]

theorem pat0098d10_cons_false (a b : Char) (l : List Char)
    (h : (b == '0') = false) : pat0098d10 (a :: b :: l) = false := by
  rcases l with _ | ⟨d, rest⟩
  · rfl
  · rcases rest with _ | ⟨e, rest⟩
    · rfl
    · simp [pat0098d10, h]

/-- After any recognized prefix is rewritten, the result is `09` followed by
9 digits, which every earlier branch rejects and the `^09[0-9]{9}$` branch
returns unchanged. -/
theorem convertCleaned_fix_09d9 {xs : List Char} (hlen : xs.length = 9)
    (hall : xs.all isDigitChar = true) :
    convertCleaned ('0' :: '9' :: xs) = '0' :: '9' :: xs := by
  unfold convertCleaned
  rw [if_neg (by simp [pat98d10_cons_false '0' '9' xs (by decide)]),
      if_neg (by simp [pat98d11_cons_false '0' '9' xs (by decide)]),
      if_neg (by simp [patPlus98d10_cons_false '0' '9' xs (by decide)]),
      if_neg (by simp [pat0098d10_cons_false '0' '9' xs (by decide)]),
      if_pos (by simp [pat09d9, hlen, hall])]

theorem all_digit_of_drop {rest : List Char} (n : Nat)
    (hall : rest.all isDigitChar = true) :
    (rest.drop n).all isDigitChar = true :=
  List.all_eq_true.mpr fun x hx =>
    List.all_eq_true.mp hall x (List.mem_of_mem_drop hx)

/-- The branch cascade of the normalizer is idempotent on every cleaned
number. -/
theorem convertCleaned_idem (c : List Char) :
    convertCleaned (convertCleaned c) = convertCleaned c := by
  by_cases h1 : pat98d10 c = true
  · obtain ⟨rest, rfl, hlen, hall⟩ := pat98d10_shape h1
    have hc : convertCleaned ('9' :: '8' :: rest) =
        '0' :: '9' :: rest.drop 1 := by
      unfold convertCleaned
      rw [if_pos h1]
      rfl
    rw [hc]
    exact convertCleaned_fix_09d9
      (by rw [List.length_drop, hlen]) (all_digit_of_drop 1 hall)
  · by_cases h2 : pat98d11 c = true
    · obtain ⟨rest, rfl, hlen, hall⟩ := pat98d11_shape h2
      have hc : convertCleaned ('9' :: '8' :: rest) = '9' :: '8' :: rest := by
        unfold convertCleaned
        rw [if_neg (by simp [h1]), if_pos h2]
      rw [hc, hc]
    · by_cases h3 : patPlus98d10 c = true
      · obtain ⟨rest, rfl, hlen, hall⟩ := patPlus98d10_shape h3
        have hc : convertCleaned ('+' :: '9' :: '8' :: rest) =
            '0' :: '9' :: rest.drop 1 := by
          unfold convertCleaned
          rw [if_neg (by simp [h1]), if_neg (by simp [h2]), if_pos h3]
          rfl
        rw [hc]
        exact convertCleaned_fix_09d9
          (by rw [List.length_drop, hlen]) (all_digit_of_drop 1 hall)
      · by_cases h4 : pat0098d10 c = true
        · obtain ⟨rest, rfl, hlen, hall⟩ := pat0098d10_shape h4
          have hc : convertCleaned ('0' :: '0' :: '9' :: '8' :: rest) =
              '0' :: '9' :: rest.drop 1 := by
            unfold convertCleaned
            rw [if_neg (by simp [h1]), if_neg (by simp [h2]),
                if_neg (by simp [h3]), if_pos h4]
            rfl
          rw [hc]
          exact convertCleaned_fix_09d9
            (by rw [List.length_drop, hlen]) (all_digit_of_drop 1 hall)
        · by_cases h5 : pat09d9 c = true
          · obtain ⟨rest, rfl, hlen, hall⟩ := pat09d9_shape h5
            have hc := convertCleaned_fix_09d9 hlen hall
            rw [hc, hc]
          · by_cases h6 : pat09d10 c = true
            · obtain ⟨rest, rfl, hlen, hall⟩ := pat09d10_shape h6
              rcases rest with _ | ⟨r, rest⟩
              · simp at hlen
              · have hc : convertCleaned ('0' :: '9' :: r :: rest) =
                    '0' :: '9' :: (r :: rest).dropLast := by
                  unfold convertCleaned
                  rw [if_neg (by simp [h1]), if_neg (by simp [h2]),
                      if_neg (by simp [h3]), if_neg (by simp [h4]),
                      if_neg (by simp [h5]), if_pos h6]
                  rfl
                rw [hc]
                refine convertCleaned_fix_09d9 ?_ ?_
                · rw [List.length_dropLast]
                  simpa using congrArg (fun n => n - 1) hlen
                · exact List.all_eq_true.mpr fun x hx =>
                    List.all_eq_true.mp hall x
                      ((List.dropLast_sublist _).subset hx)
            · have hc : convertCleaned c = c := by
                unfold convertCleaned
                rw [if_neg (by simp [h1]), if_neg (by simp [h2]),
                    if_neg (by simp [h3]), if_neg (by simp [h4]),
                    if_neg (by simp [h5]), if_neg (by simp [h6])]
              rw [hc, hc]

/-- Every character of a normalizer result is either one of the inserted
`0`/`9` characters or a character of the cleaned input. -/
theorem convertCleaned_mem {c : List Char} {x : Char}
    (hx : x ∈ convertCleaned c) : x = '0' ∨ x = '9' ∨ x ∈ c := by
  unfold convertCleaned at hx
  split at hx
  · simp only [List.mem_cons] at hx
    rcases hx with rfl | rfl | hx
    · exact Or.inl rfl
    · exact Or.inr (Or.inl rfl)
    · exact Or.inr (Or.inr (List.mem_of_mem_drop hx))
  · split at hx
    · exact Or.inr (Or.inr hx)
    · split at hx
      · simp only [List.mem_cons] at hx
        rcases hx with rfl | rfl | hx
        · exact Or.inl rfl
        · exact Or.inr (Or.inl rfl)
        · exact Or.inr (Or.inr (List.mem_of_mem_drop hx))
      · split at hx
        · simp only [List.mem_cons] at hx
          rcases hx with rfl | rfl | hx
          · exact Or.inl rfl
          · exact Or.inr (Or.inl rfl)
          · exact Or.inr (Or.inr (List.mem_of_mem_drop hx))
        · split at hx
          · exact Or.inr (Or.inr hx)
          · split at hx
            · exact Or.inr (Or.inr ((List.dropLast_sublist _).subset hx))
            · exact Or.inr (Or.inr hx)

theorem clean_convertCleaned {c : List Char}
    (hkept : ∀ x ∈ c, removableChar x = false) :
    clean_phone_number (convertCleaned c) = convertCleaned c := by
  apply clean_of_all_kept
  intro x hx
  rcases convertCleaned_mem hx with rfl | rfl | hxc
  · decide
  · decide
  · exact hkept x hxc

/-- C8: the phone normalization function is idempotent.  Proved for every
input, in particular for every input in the supported formats
(country-code-prefixed, plus-prefixed, 00-prefixed, already-local). -/
theorem c8_phone_normalize_idempotent (phone : List Char) :
    convert_phone_for_melipayamak (convert_phone_for_melipayamak phone) =
      convert_phone_for_melipayamak phone := by
  unfold convert_phone_for_melipayamak
  rw [clean_convertCleaned (fun x hx => clean_mem_kept hx)]
  exact convertCleaned_idem _

/-- C9 counterexample: the input `a-b` matches none of the supported
formats, yet the normalizer does not return it unchanged: it returns the
cleaned form `ab` with the dash stripped. -/
theorem c9_counterexample :
    convert_phone_for_melipayamak ['a', '-', 'b'] = ['a', 'b'] ∧
      (['a', 'b'] : List Char) ≠ ['a', '-', 'b'] := by
  constructor
  · rfl
  · decide

/-- C9 amended: normalization is total (the embedding is a total function;
no branch of the source raises), and every input whose cleaned form matches
none of the recognized prefix patterns is returned in cleaned form, i.e.
unchanged except that whitespace, dashes and parentheses are stripped. -/
theorem c9_unmatched_input_returned_cleaned (phone : List Char)
    (h : noBranchMatches (clean_phone_number phone) = true) :
    convert_phone_for_melipayamak phone = clean_phone_number phone := by
  unfold noBranchMatches at h
  simp only [Bool.and_eq_true, Bool.not_eq_true'] at h
  obtain ⟨⟨⟨⟨⟨h1, h2⟩, h3⟩, h4⟩, h5⟩, h6⟩ := h
  unfold convert_phone_for_melipayamak convertCleaned
  rw [if_neg (by simp [h1]), if_neg (by simp [h2]), if_neg (by simp [h3]),
      if_neg (by simp [h4]), if_neg (by simp [h5]), if_neg (by simp [h6])]

/-- Witness for C9 at the concrete unmatched input `abc`. -/
theorem c9_witness :
    noBranchMatches (clean_phone_number ['a', 'b', 'c']) = true ∧
      convert_phone_for_melipayamak ['a', 'b', 'c'] = ['a', 'b', 'c'] :=
  ⟨by decide, c9_unmatched_input_returned_cleaned ['a', 'b', 'c'] (by decide)⟩

/-! ### Dispatch lemmas -/

/-- An `is_open` call never increases the failure count. -/
theorem is_open_snd_failure_le (s : CBState) (now : Int) :
    (s.is_open now).2.failure_count ≤ s.failure_count := by
  unfold CBState.is_open
  split
  · cases hlf : s.last_failure_time with
    | none => simp
    | some t =>
        simp only
        split <;> simp
  · simp

/-- C2 counterexample: with the breaker open (5 failures one second ago,
threshold 5, 60 second window), a dispatch writes nothing to the audit
sink, contradicting the claim that the attempt is still recorded there. -/
theorem c2_counterexample :
    (sampleOpenBreaker.is_open 10).1 = true ∧
      (send_sms sampleOpenBreaker 10 sampleReq .raiseOther false).audits =
        [] ∧
      (send_sms sampleOpenBreaker 10 sampleReq
          .raiseOther false).events.count Ev.auditWrite = 0 := by
  decide

/-- C2 amended: a dispatch made on either channel while that channel's
circuit breaker is open fails immediately with the circuit-open error,
performs no transport call, acquires no rate-limiter permit, and writes
nothing to the audit sink (the attempt is not recorded as a failed attempt;
only an error log line is emitted). -/
theorem c2_circuit_open_fast_fail (cb : CBState) (now : Int) (req : SmsReq)
    (t : SmsTransport) (a : Bool) (ecb : CBState) (enow : Int)
    (ereq : EmailReq) (es : SmtpOutcome) (ea : Bool)
    (h : (cb.is_open now).1 = true) (he : (ecb.is_open enow).1 = true) :
    ((send_sms cb now req t a).result = .raised
        "SMS service is temporarily unavailable due to high failure rate" ∧
      (send_sms cb now req t a).events = [] ∧
      (send_sms cb now req t a).audits = []) ∧
    ((send_email ecb enow ereq es ea).result = .raised
        "Email service is temporarily unavailable due to high failure rate" ∧
      (send_email ecb enow ereq es ea).events = [] ∧
      (send_email ecb enow ereq es ea).audits = []) := by
  constructor
  · unfold send_sms
    rw [if_pos h]
    exact ⟨rfl, rfl, rfl⟩
  · unfold send_email
    rw [if_pos he]
    exact ⟨rfl, rfl, rfl⟩

theorem c2_witness :
    (sampleOpenBreaker.is_open 10).1 = true ∧
      (sampleOpenEmailBreaker.is_open 10).1 = true ∧
      (send_sms sampleOpenBreaker 10 sampleBadReq .raiseTimeout true).events =
        [] ∧
      (send_email sampleOpenEmailBreaker 10 sampleEmailReq (.sent "m")
          false).audits = [] := by
  have h := c2_circuit_open_fast_fail sampleOpenBreaker 10 sampleBadReq
    .raiseTimeout true sampleOpenEmailBreaker 10 sampleEmailReq (.sent "m")
    false (by decide) (by decide)
  exact ⟨by decide, by decide, h.1.2.1, h.2.2.2⟩

/-- C3 counterexample: on the email channel an SMTP authentication failure
is matched by `retry_if_exception_type(smtplib.SMTPException)`, so with the
configured maximum of 3 attempts, tenacity retries it after attempt 1 -
contradicting the claim that authentication failures are never retried. -/
theorem c3_counterexample :
    email_should_retry email_retry_attempts 1
        EmailExcKind.smtpAuthenticationError = true ∧
      emailRetryableExc EmailExcKind.smtpAuthenticationError = true := by
  decide

/-- C3 amended: no retry happens once the attempt number reaches the
configured maximum, regardless of error kind, on either channel, and
validation errors are never retried on either channel; a retry happens on
the SMS channel iff the error is one of exactly the transient transport
errors (timeout, connection failure, malformed protocol response) and the
attempt number is below the ceiling; a retry happens on the email channel
iff the error is a `smtplib.SMTPException` (which includes SMTP
authentication failures and recipient-refused errors), a `ConnectionError`
or a `TimeoutError`, and the attempt number is below the ceiling. -/
theorem c3_retry_policy (maxAttempts n : Nat) (e : SmsExcKind)
    (ee : EmailExcKind) :
    (maxAttempts ≤ n → sms_should_retry maxAttempts n e = false ∧
      email_should_retry maxAttempts n ee = false) ∧
    (sms_should_retry maxAttempts n e = true ↔
      ((e = .timeoutException ∨ e = .connectError ∨
          e = .remoteProtocolError) ∧ n < maxAttempts)) ∧
    (email_should_retry maxAttempts n ee = true ↔
      ((ee = .smtpAuthenticationError ∨ ee = .smtpRecipientsRefused ∨
          ee = .smtpOtherError ∨ ee = .connectionError ∨
          ee = .timeoutError) ∧ n < maxAttempts)) ∧
    sms_should_retry maxAttempts n .smsServiceError = false ∧
    email_should_retry maxAttempts n .valueError = false := by
  refine ⟨?_, ?_, ?_, ?_, ?_⟩
  · intro h
    constructor <;>
      simp [sms_should_retry, email_should_retry, Nat.not_lt.mpr h]
  · cases e <;> simp [sms_should_retry, smsRetryableExc]
  · cases ee <;> simp [email_should_retry, emailRetryableExc]
  · simp [sms_should_retry, smsRetryableExc]
  · simp [email_should_retry, emailRetryableExc]

theorem c3_witness :
    (3 : Nat) ≤ 3 ∧
      sms_should_retry 3 3 SmsExcKind.timeoutException = false ∧
      email_should_retry 3 3 EmailExcKind.smtpOtherError = false :=
  ⟨by decide,
    (c3_retry_policy 3 3 .timeoutException .smtpOtherError).1 (by decide)⟩

/-- C4: permits in use never exceed the configured capacity (and are never
negative, being a `Nat`) along every sequence of acquire/release steps of
the semaphore; and every dispatch trace of either channel respects the
scoped-permit discipline: either the call short-circuits before the
`async with` block, or it acquires exactly one permit, performs its work
while holding it, and releases it as the final step on every exit path. -/
theorem c4_rate_limiter_bounded_and_scoped (capacity n : Nat)
    (h : SemReach capacity n) (cb : CBState) (now : Int) (req : SmsReq)
    (t : SmsTransport) (a : Bool) (ecb : CBState) (ereq : EmailReq)
    (es : SmtpOutcome) (ea : Bool) :
    n ≤ capacity ∧ permitScoped (send_sms cb now req t a).events ∧
      permitScoped (send_email ecb now ereq es ea).events := by
  refine ⟨?_, ?_, ?_⟩
  · induction h with
    | init => exact Nat.zero_le _
    | acq hr hlt ih => omega
    | rel hr hpos ih => omega
  · unfold send_sms
    split
    · exact Or.inl rfl
    · cases hval : validate_sms_request req with
      | some msg => exact Or.inl rfl
      | none =>
          cases t with
          | ok recId status =>
              exact Or.inr ⟨[Ev.transportCall, Ev.auditWrite], rfl,
                by decide, by decide⟩
          | okBadJson =>
              exact Or.inr ⟨[Ev.transportCall], rfl, by decide, by decide⟩
          | httpError code text =>
              exact Or.inr ⟨[Ev.transportCall, Ev.auditWrite], rfl,
                by decide, by decide⟩
          | raiseTimeout =>
              exact Or.inr ⟨[Ev.transportCall], rfl, by decide, by decide⟩
          | raiseConnect =>
              exact Or.inr ⟨[Ev.transportCall], rfl, by decide, by decide⟩
          | raiseHttpStatus =>
              exact Or.inr ⟨[Ev.transportCall], rfl, by decide, by decide⟩
          | raiseOther =>
              exact Or.inr ⟨[Ev.transportCall], rfl, by decide, by decide⟩
  · unfold send_email
    split
    · exact Or.inl rfl
    · cases es with
      | sent m =>
          cases ea with
          | false =>
              exact Or.inr ⟨[Ev.transportCall, Ev.auditWrite], rfl,
                by decide, by decide⟩
          | true =>
              exact Or.inr ⟨[Ev.transportCall, Ev.auditWrite, Ev.auditWrite],
                rfl, by decide, by decide⟩
      | raiseExc e =>
          cases ea with
          | false =>
              exact Or.inr ⟨[Ev.transportCall, Ev.auditWrite], rfl,
                by decide, by decide⟩
          | true =>
              exact Or.inr ⟨[Ev.transportCall, Ev.auditWrite], rfl,
                by decide, by decide⟩

theorem c4_witness :
    SemReach sms_rate_limit 1 ∧
      (1 ≤ sms_rate_limit ∧
        permitScoped
          (send_sms sampleClosedBreaker 0 sampleReq .raiseOther false).events ∧
        permitScoped
          (send_email sampleEmailBreaker 0 sampleEmailReq
            (.sent "m") false).events) :=
  ⟨SemReach.acq SemReach.init (by decide),
    c4_rate_limiter_bounded_and_scoped sms_rate_limit 1
      (SemReach.acq SemReach.init (by decide)) sampleClosedBreaker 0
      sampleReq .raiseOther false sampleEmailBreaker sampleEmailReq
      (.sent "m") false⟩

/-- C5 counterexample: with a closed breaker, a request with an invalid
phone number short-circuits with nothing written to the audit sink,
contradicting the claim that the failed attempt is still audited. -/
theorem c5_counterexample :
    (sampleClosedBreaker.is_open 0).1 = false ∧
      (send_sms sampleClosedBreaker 0 sampleBadReq .raiseOther false).audits =
        [] ∧
      (send_sms sampleClosedBreaker 0 sampleBadReq .raiseOther false).events =
        [] ∧
      (send_sms sampleClosedBreaker 0 sampleBadReq .raiseOther
          false).breaker.failure_count = 0 := by
  decide

/-- C5 amended: a dispatch whose input fails validation short-circuits
before any permit acquisition and before any transport call, raising the
validation error, and does not increment the circuit-breaker failure count;
but the failed attempt is not audited (no audit sink write happens). -/
theorem c5_validation_failure_short_circuits (cb : CBState) (now : Int)
    (req : SmsReq) (t : SmsTransport) (a : Bool) (msg : String)
    (hopen : (cb.is_open now).1 = false)
    (hval : validate_sms_request req = some msg) :
    (send_sms cb now req t a).result = .raised msg ∧
    (send_sms cb now req t a).events = [] ∧
    (send_sms cb now req t a).audits = [] ∧
    (send_sms cb now req t a).breaker = (cb.is_open now).2 ∧
    (send_sms cb now req t a).breaker.failure_count ≤ cb.failure_count := by
  unfold send_sms
  rw [if_neg (by simp [hopen]), hval]
  exact ⟨rfl, rfl, rfl, rfl, is_open_snd_failure_le cb now⟩

theorem c5_witness :
    (sampleClosedBreaker.is_open 0).1 = false ∧
      validate_sms_request sampleBadReq =
        some ("Invalid phone number format: " ++ String.mk ['a']) ∧
      (send_sms sampleClosedBreaker 0 sampleBadReq .raiseTimeout true).events =
        [] :=
  ⟨by decide, by decide,
    (c5_validation_failure_short_circuits sampleClosedBreaker 0 sampleBadReq
        .raiseTimeout true ("Invalid phone number format: " ++ String.mk ['a'])
        (by decide) (by decide)).2.1⟩

/-- C6 counterexample: on the email channel the audit write runs inside the
`try` block, so when the sink raises after a successful SMTP send the
dispatch raises instead of returning the sent response, and the breaker
records a failure - the dispatch result is not the same whether or not the
audit write throws. -/
theorem c6_counterexample :
    (send_email sampleEmailBreaker 0 sampleEmailReq (.sent "mid")
        true).result = .raised audit_error_msg ∧
      (send_email sampleEmailBreaker 0 sampleEmailReq (.sent "mid")
          false).result = .response "user@example.com" "sent" ∧
      EmailResult.raised audit_error_msg ≠
        EmailResult.response "user@example.com" "sent" ∧
      (send_email sampleEmailBreaker 0 sampleEmailReq (.sent "mid")
          true).breaker.failure_count = 1 ∧
      (send_email sampleEmailBreaker 0 sampleEmailReq (.sent "mid")
          false).breaker.failure_count = 0 := by
  refine ⟨rfl, rfl, by decide, rfl, rfl⟩

/-- C6 amended: on the SMS channel an audit sink failure is swallowed inside
`_log_sms_async`, so the dispatch result, breaker outcome and event trace
are identical whether or not the audit write throws; on the email channel
the audit write runs on the critical path, so a sink failure after a
successful send aborts the dispatch with an error and records a breaker
failure, while with a healthy sink the same dispatch returns the sent
response. -/
theorem c6_audit_failure_effect (cb : CBState) (now : Int) (req : SmsReq)
    (t : SmsTransport) (ecb : CBState) (ereq : EmailReq) (m : String)
    (hopen : (ecb.is_open now).1 = false) :
    ((send_sms cb now req t true).result =
        (send_sms cb now req t false).result ∧
      (send_sms cb now req t true).breaker =
        (send_sms cb now req t false).breaker ∧
      (send_sms cb now req t true).events =
        (send_sms cb now req t false).events) ∧
    ((send_email ecb now ereq (.sent m) true).result =
        .raised audit_error_msg ∧
      (send_email ecb now ereq (.sent m) true).breaker =
        (ecb.is_open now).2.record_failure now ∧
      (send_email ecb now ereq (.sent m) false).result =
        .response ereq.toAddress "sent") := by
  constructor
  · unfold send_sms
    split
    · exact ⟨rfl, rfl, rfl⟩
    · cases hval : validate_sms_request req with
      | some msg => exact ⟨rfl, rfl, rfl⟩
      | none => cases t <;> exact ⟨rfl, rfl, rfl⟩
  · have hne : ¬((ecb.is_open now).1 = true) := by simp [hopen]
    unfold send_email
    simp only [if_neg hne]
    exact ⟨rfl, rfl, rfl⟩

theorem c6_witness :
    (sampleEmailBreaker.is_open 0).1 = false ∧
      (send_sms sampleClosedBreaker 0 sampleReq (.ok (some 1) "ok")
          true).result =
        (send_sms sampleClosedBreaker 0 sampleReq (.ok (some 1) "ok")
          false).result :=
  ⟨by decide,
    ((c6_audit_failure_effect sampleClosedBreaker 0 sampleReq
        (.ok (some 1) "ok") sampleEmailBreaker sampleEmailReq "mid"
        (by decide)).1).1⟩

/-- C7: an OTP event whose identifier or code is missing or empty performs
zero transport invocations (the handlers return before building any
request), and under the spec-modelled broker callback the message is
acknowledged and dropped, not requeued; whereas a dispatch failure on a
well-formed event (transport- or circuit-related, surfaced to the handler
as a failed dispatch outcome) is negatively acknowledged for broker-level
redelivery. -/
theorem c7_bad_event_dropped_transport_failure_nacked (msg : OTPMessage)
    (send : DispatchOutcome)
    (h : truthyStr msg.identifier = false ∨ truthyStr msg.otp_code = false)
    (msg2 : OTPMessage) (h2i : truthyStr msg2.identifier = true)
    (h2c : truthyStr msg2.otp_code = true) :
    (handle_email_otp msg send).2 = 0 ∧
      (handle_sms_otp msg send).2 = 0 ∧
      broker_action msg (handle_email_otp msg send).1 = .ack ∧
      broker_action msg (handle_sms_otp msg send).1 = .ack ∧
      broker_action msg2 (handle_email_otp msg2 .failure).1 =
        .nackRequeue ∧
      broker_action msg2 (handle_sms_otp msg2 .failure).1 = .nackRequeue := by
  have hcond : (!(truthyStr msg.identifier) ||
      !(truthyStr msg.otp_code)) = true := by
    rcases h with h | h <;> simp [h]
  have hcond2 : (!(truthyStr msg2.identifier) ||
      !(truthyStr msg2.otp_code)) = false := by
    simp [h2i, h2c]
  have hbad : badEventData msg = true := by
    unfold badEventData
    exact hcond
  have hgood : badEventData msg2 = false := by
    unfold badEventData
    exact hcond2
  unfold handle_email_otp handle_sms_otp broker_action
  rw [hcond, hcond2, hbad, hgood]
  exact ⟨rfl, rfl, rfl, rfl, rfl, rfl⟩

theorem c7_witness :
    truthyStr (none : Option String) = false ∧
      truthyStr (some "user@example.com") = true ∧
      truthyStr (some "123456") = true ∧
      (handle_email_otp badOtpMessage .success).2 = 0 ∧
      broker_action badOtpMessage
        (handle_email_otp badOtpMessage .success).1 = .ack ∧
      broker_action goodOtpMessage
        (handle_email_otp goodOtpMessage .failure).1 = .nackRequeue := by
  have h := c7_bad_event_dropped_transport_failure_nacked badOtpMessage
    .success (Or.inl (by decide)) goodOtpMessage (by decide) (by decide)
  exact ⟨by decide, by decide, by decide, h.1, h.2.2.1, h.2.2.2.2.1⟩

/-- C10: the message assembled for SMTP uses the caller-supplied subject and
body only when both are truthy (present and non-empty); whenever either is
absent or empty, both are discarded and the fixed default subject
`Welcome to Our Service` and the fixed default welcome body are used. -/
theorem c10_email_subject_body_defaulting (defaultFrom : String)
    (req : EmailReq) :
    ((truthyStr req.subject = false ∨ truthyStr req.body = false) →
      (build_smtp_message defaultFrom req).subject = default_subject ∧
        (build_smtp_message defaultFrom req).body = default_body) ∧
    (truthyStr req.subject = true → truthyStr req.body = true →
      (build_smtp_message defaultFrom req).subject = req.subject.getD "" ∧
        (build_smtp_message defaultFrom req).body = req.body.getD "") := by
  constructor
  · intro h
    have hcond : (truthyStr req.subject && truthyStr req.body) = false := by
      rcases h with h | h <;> simp [h]
    unfold build_smtp_message effective_subject_body
    rw [hcond]
    exact ⟨rfl, rfl⟩
  · intro hs hb
    unfold build_smtp_message effective_subject_body
    rw [hs, hb]
    exact ⟨rfl, rfl⟩

theorem c10_witness :
    truthyStr (none : Option String) = false ∧
      (build_smtp_message "svc@example.com"
          { toAddress := "user@example.com", subject := some "Hi",
            body := none }).subject = default_subject :=
  ⟨by decide,
    ((c10_email_subject_body_defaulting "svc@example.com"
        { toAddress := "user@example.com", subject := some "Hi",
          body := none }).1 (Or.inr (by decide))).1⟩

end CommService
